import Mathlib

/-!
Verification development for the `invoicePayments` Lightning web component
(`force-app/main/default/lwc/invoicePayments/invoicePayments.js`).

The component is shallow-embedded: its reactive fields become a record
`CState`, its JavaScript object `formFields` becomes an association list with
JavaScript assignment/lookup semantics, `parseFloat` results are modelled as
`Option ℚ` (with `none` standing for `NaN`), and the asynchronous submit flow
becomes a function from the component state, the wall clock, the drawn random
characters and the remote outcome to the next state plus the list of emitted
external effects.
-/

/-- The four payment modes offered by the `paymentModes` configuration. -/
inductive PaymentMode
  | cash
  | upi
  | card
  | bank
deriving DecidableEq

/-- The string key used for a mode (the `value` in `paymentModes`). -/
def PaymentMode.key : PaymentMode → String
  | .cash => "Cash"
  | .upi => "UPI"
  | .card => "Card"
  | .bank => "Bank Transfer"

/-- One entry of the `paymentModeFields` templates. -/
structure FieldSpec where
  name : String
  label : String
  ftype : String
  required : Bool
deriving DecidableEq

/-- The `paymentModeFields` dynamic field templates, copied from the source. -/
def paymentModeFields : PaymentMode → List FieldSpec
  | .cash =>
      [⟨"cashReceivedBy", "Cash Received By", "text", true⟩,
       ⟨"cashReceiptNumber", "Cash Receipt Number", "text", true⟩]
  | .upi =>
      [⟨"upiAppName", "UPI App Name", "picklist", true⟩,
       ⟨"upiId", "UPI ID", "text", true⟩,
       ⟨"nameOnUpi", "Name On UPI", "text", true⟩]
  | .card =>
      [⟨"cardHolderName", "Card Holder Name", "text", true⟩,
       ⟨"cardNumber", "Card Number", "text", true⟩,
       ⟨"cardType", "Card Type", "combobox", true⟩]
  | .bank =>
      [⟨"bankName", "Bank Name", "text", true⟩,
       ⟨"ifscCode", "IFSC Code", "text", true⟩,
       ⟨"bankAccountNumber", "Bank Account Number", "text", true⟩]

/-- JavaScript lookup `this.paymentModeFields[this.selectedPaymentMode] || []`:
`null` (no mode selected) indexes to `undefined`, which `||` turns into `[]`. -/
def paymentModeFieldsLookup : Option PaymentMode → List FieldSpec
  | some m => paymentModeFields m
  | none => []

/-- Names of the fields of a mode's template. -/
def requiredNames (m : PaymentMode) : List String :=
  (paymentModeFields m).map (·.name)

/-- The component field `paymentAmount`.  It is `null` initially and after a
reset, and otherwise holds the raw string from the amount input.  Only the
string's truthiness and its `parseFloat` image are observable in the code, so
the embedding keeps exactly those: `numA q` is a non-empty string that
`parseFloat` parses to the number `q`, `nanA` is a non-empty string that
`parseFloat` turns into `NaN`, `emptyA` is the empty string. -/
inductive AmountInput
  | nullA
  | emptyA
  | numA (q : ℚ)
  | nanA
deriving DecidableEq

/-- JavaScript truthiness of the raw `paymentAmount` value: `null` and the
empty string are falsy, any non-empty string is truthy. -/
def AmountInput.truthy : AmountInput → Bool
  | .nullA => false
  | .emptyA => false
  | .numA _ => true
  | .nanA => true

/-- The `parseFloat` image of the raw `paymentAmount` value; `none` is `NaN`
(`parseFloat` of `null`, of the empty string, or of a non-numeric string). -/
def AmountInput.parseFloat : AmountInput → Option ℚ
  | .nullA => none
  | .emptyA => none
  | .numA q => some q
  | .nanA => none

/-- JavaScript comparison `x <= c` where `x` may be `NaN`: any comparison with
`NaN` is false. -/
def jsLe (x : Option ℚ) (c : ℚ) : Bool :=
  match x with
  | none => false
  | some q => decide (q ≤ c)

/-- JavaScript comparison `x > c` where `x` may be `NaN`. -/
def jsGt (x : Option ℚ) (c : ℚ) : Bool :=
  match x with
  | none => false
  | some q => decide (c < q)

/-- JavaScript `q || 0` on a number that is not `NaN`: only `0` is falsy, so
this is the identity on rationals; kept for fidelity to the source. -/
def jsOrZero (q : ℚ) : ℚ :=
  if q = 0 then 0 else q

/-- JavaScript `x || 0` on a `parseFloat` result: `NaN` and `0` become `0`. -/
def jsNumOr0 (x : Option ℚ) : ℚ :=
  match x with
  | none => 0
  | some q => jsOrZero q

/-- JavaScript `s || d` on an optional string: `undefined` and `""` give `d`. -/
def jsOrStr (x : Option String) (d : String) : String :=
  match x with
  | some s => if s = "" then d else s
  | none => d

/-- The fields of the wired invoice record that the component reads.  A field
that the fetched record does not carry is `none` (JavaScript `undefined`). -/
structure InvoiceData where
  id : Option String
  customerId : Option String
  invoiceAmount : Option ℚ
  totalPaid : Option ℚ
  outstanding : Option ℚ
  currency : Option String
deriving DecidableEq

/-- The empty object `{}` that `invoiceData` is initialized to and reset to on
a wire error. -/
def emptyInvoice : InvoiceData :=
  ⟨none, none, none, none, none, none⟩

/-- JavaScript object semantics for `formFields`: lookup of a property. -/
def objGet (m : List (String × String)) (k : String) : Option String :=
  m.lookup k

/-- JavaScript object semantics for `formFields`: property assignment
(overwrite in place, or append a new property). -/
def objSet : List (String × String) → String → String → List (String × String)
  | [], k, v => [(k, v)]
  | p :: rest, k, v => if p.1 = k then (k, v) :: rest else p :: objSet rest k v

/-- The reactive fields of the component that the verified behaviour touches. -/
structure CState where
  invoiceData : InvoiceData
  wiredInvoiceResult : Bool
  wiredHistoryResult : Bool
  selectedPaymentMode : Option PaymentMode
  paymentAmount : AmountInput
  paymentNote : String
  paymentType : Option String
  showPaymentForm : Bool
  formFields : List (String × String)
  isLoading : Bool
  isSaving : Bool
  errorMessage : String
deriving DecidableEq

/-- The field initializers of the class. -/
def initialCState : CState :=
  ⟨emptyInvoice, false, false, none, .nullA, "", none, false, [], false, false, ""⟩

/-- Getter `outstandingAmount`: `this.invoiceData?.AMERP_Outstanding_Amount__c ?? 0`. -/
def outstandingAmount (st : CState) : ℚ :=
  st.invoiceData.outstanding.getD 0

/-- Truthiness test `!this.formFields[field.name]`: a missing property
(`undefined`) and the empty string are falsy. -/
def fieldEmpty (st : CState) (name : String) : Bool :=
  match objGet st.formFields name with
  | none => true
  | some v => v = ""

/-- The `validatePaymentForm` checks, refined to also record which toast
message the first failing check raises (`none` means the form is valid).
The three checks appear in source order: amount truthy and `parseFloat`
not `<= 0`; `parseFloat` not above `this.outstandingAmount || 0`; every
required field of the active mode non-empty, first offender reported. -/
def validateResult (st : CState) : Option String :=
  if !st.paymentAmount.truthy || jsLe st.paymentAmount.parseFloat 0 then
    some "Please enter a valid amount"
  else if jsGt st.paymentAmount.parseFloat (jsOrZero (outstandingAmount st)) then
    some "Payment amount cannot exceed outstanding amount"
  else
    match (paymentModeFieldsLookup st.selectedPaymentMode).find?
        (fun f => f.required && fieldEmpty st f.name) with
    | some f => some (f.label ++ " is required")
    | none => none

/-- The boolean result of `validatePaymentForm`. -/
def validatePaymentForm (st : CState) : Bool :=
  (validateResult st).isNone

/-- All required fields of the active mode are non-empty. -/
def requiredFilled (st : CState) : Bool :=
  (paymentModeFieldsLookup st.selectedPaymentMode).all
    (fun f => !(f.required && fieldEmpty st f.name))

/-- `handlePaymentModeSelect`: record the mode, restart `formFields` from `{}`
seeding every template field with the empty string, and show the form.  (The
`setTimeout` scroll is pure DOM work and has no state effect.) -/
def handlePaymentModeSelect (st : CState) (m : PaymentMode) : CState :=
  { st with
    selectedPaymentMode := some m
    formFields := (paymentModeFieldsLookup (some m)).foldl
      (fun acc f => objSet acc f.name "") []
    showPaymentForm := true }

/-- `resetPaymentForm`. -/
def resetPaymentForm (st : CState) : CState :=
  { st with
    selectedPaymentMode := none
    paymentAmount := .nullA
    paymentNote := ""
    paymentType := none
    formFields := []
    showPaymentForm := false }

/-- Getter `isPayButtonDisabled`:
`(parseFloat(outstanding) || 0)`, `(parseFloat(amount) || 0)`, then
`amount <= 0 || amount > outstanding || this.isSaving`. -/
def isPayButtonDisabled (st : CState) : Bool :=
  let outstanding := jsOrZero (outstandingAmount st)
  let amount := jsNumOr0 st.paymentAmount.parseFloat
  decide (amount ≤ 0) || decide (outstanding < amount) || st.isSaving

/-- ASCII uppercase as JavaScript `toUpperCase` performs it on the ASCII
strings at hand, character by character. -/
def jsToUpper (s : String) : String :=
  String.mk (s.data.map Char.toUpper)

/-- JavaScript `substring(0, n)`: the first `n` characters (all of them when
the string is shorter). -/
def jsTake (s : String) (n : ℕ) : String :=
  String.mk (s.data.take n)

/-- JavaScript `slice(-2)` on a string: the last two characters (the whole
string when it is shorter). -/
def jsSliceLast2 (s : String) : String :=
  String.mk (s.data.drop (s.data.length - 2))

/-- Decimal digits of a natural number as JavaScript `String(n)` renders them,
computed with structural fuel so that the kernel can evaluate it. -/
def natToCharsAux : ℕ → ℕ → List Char
  | 0, _ => []
  | fuel + 1, n =>
      if n < 10 then [Char.ofNat (48 + n)]
      else natToCharsAux fuel (n / 10) ++ [Char.ofNat (48 + n % 10)]

/-- JavaScript `String(n)` for a natural number. -/
def natRepr (n : ℕ) : String :=
  String.mk (natToCharsAux (n + 1) n)

/-- JavaScript `String(i)` for an integer. -/
def intRepr (i : ℤ) : String :=
  if i < 0 then "-" ++ natRepr i.natAbs else natRepr i.toNat

/-- JavaScript `s.padStart(w, '0')`: prepend zeros up to width `w`, never
truncating. -/
def padStartZ (s : String) (w : ℕ) : String :=
  String.mk (List.replicate (w - s.length) '0' ++ s.data)

/-- The character pool `'ABCDEFGHIJKLMNOPQRSTUVWXYZ0123456789'` used for the
random suffix of every generated reference. -/
def txnChars : String :=
  "ABCDEFGHIJKLMNOPQRSTUVWXYZ0123456789"

/-- One draw `chars.charAt(Math.floor(Math.random() * chars.length))`; the
random index below 36 is an input of the embedding. -/
def suffixChar (i : Fin 36) : Char :=
  txnChars.data.getD i.val 'A'

/-- The loop building `randomSuffix` from four random draws. -/
def randomSuffix (rs : List (Fin 36)) : String :=
  String.mk (rs.map suffixChar)

/-- The local wall-clock readings the generators take from `new Date()`,
together with the UTC readings `toISOString` uses.  `month0` is the zero-based
`getMonth()` value. -/
structure Clock where
  day : ℕ
  month0 : ℕ
  year : ℕ
  hours : ℕ
  minutes : ℕ
  seconds : ℕ
  millis : ℕ
  utcDay : ℕ
  utcMonth0 : ℕ
  utcYear : ℕ
deriving DecidableEq

/-- The ranges JavaScript `Date` accessors guarantee (years restricted to the
four-digit era the component runs in). -/
def Clock.WF (c : Clock) : Prop :=
  1 ≤ c.day ∧ c.day ≤ 31 ∧ c.month0 ≤ 11 ∧ 1000 ≤ c.year ∧ c.year ≤ 9999 ∧
  c.hours ≤ 23 ∧ c.minutes ≤ 59 ∧ c.seconds ≤ 59 ∧ c.millis ≤ 999 ∧
  1 ≤ c.utcDay ∧ c.utcDay ≤ 31 ∧ c.utcMonth0 ≤ 11 ∧
  1000 ≤ c.utcYear ∧ c.utcYear ≤ 9999

/-- The `dateStr` component: `DD` + `MM` (one-based month) + `YY`
(`String(getFullYear()).slice(-2)`). -/
def dateStr (c : Clock) : String :=
  padStartZ (natRepr c.day) 2 ++ padStartZ (natRepr (c.month0 + 1)) 2 ++
    jsSliceLast2 (natRepr c.year)

/-- The `timeStr` component: `HH` + `MM` + `SS`. -/
def timeStr (c : Clock) : String :=
  padStartZ (natRepr c.hours) 2 ++ padStartZ (natRepr c.minutes) 2 ++
    padStartZ (natRepr c.seconds) 2

/-- The `amountStr` component `String(Math.floor(amount)).padStart(8, '0')`;
`none` is a `NaN` amount, which `Math.floor` keeps as `NaN` and `String`
renders as `"NaN"`. -/
def amountStr (a : Option ℚ) : String :=
  padStartZ (match a with | some q => intRepr (Int.floor q) | none => "NaN") 8

/-- The `uniqueId` suffix: the three-digit millisecond reading followed by the
four random draws. -/
def uniqueId (c : Clock) (rs : List (Fin 36)) : String :=
  padStartZ (natRepr c.millis) 3 ++ randomSuffix rs

/-- `generateUpiReferenceNumber`. -/
def generateUpiReferenceNumber (c : Clock) (a : Option ℚ) (rs : List (Fin 36)) : String :=
  "UPI-" ++ dateStr c ++ "-" ++ timeStr c ++ "-" ++ amountStr a ++ "-" ++ uniqueId c rs

/-- The card prefix `(this.formFields.cardType || 'CARD').substring(0, 4).toUpperCase()`. -/
def cardPrefix (st : CState) : String :=
  jsToUpper (jsTake (jsOrStr (objGet st.formFields "cardType") "CARD") 4)

/-- `generateCardTransactionId`. -/
def generateCardTransactionId (st : CState) (c : Clock) (a : Option ℚ)
    (rs : List (Fin 36)) : String :=
  cardPrefix st ++ "-" ++ dateStr c ++ "-" ++ timeStr c ++ "-" ++ amountStr a ++
    "-" ++ uniqueId c rs

/-- The bank prefix `(this.formFields.bankName || 'BANK').substring(0, 4).toUpperCase()`. -/
def bankPrefix (st : CState) : String :=
  jsToUpper (jsTake (jsOrStr (objGet st.formFields "bankName") "BANK") 4)

/-- `generateBankTransactionId`. -/
def generateBankTransactionId (st : CState) (c : Clock) (a : Option ℚ)
    (rs : List (Fin 36)) : String :=
  bankPrefix st ++ "-" ++ dateStr c ++ "-" ++ timeStr c ++ "-" ++ amountStr a ++
    "-" ++ uniqueId c rs

/-- `generateCashReceiptNumber`. -/
def generateCashReceiptNumber (c : Clock) (a : Option ℚ) (rs : List (Fin 36)) : String :=
  "CASH-" ++ dateStr c ++ "-" ++ timeStr c ++ "-" ++ amountStr a ++ "-" ++ uniqueId c rs

/-- `generateGenericTransactionId` (the `default` branch of the dispatch). -/
def generateGenericTransactionId (c : Clock) (a : Option ℚ) (rs : List (Fin 36)) : String :=
  "TXN-" ++ dateStr c ++ "-" ++ timeStr c ++ "-" ++ amountStr a ++ "-" ++ uniqueId c rs

/-- `generateTransactionId`: dispatch on the selected mode, `none` (no mode)
falling to the generic generator. -/
def generateTransactionId (mode : Option PaymentMode) (st : CState) (c : Clock)
    (a : Option ℚ) (rs : List (Fin 36)) : String :=
  match mode with
  | some .upi => generateUpiReferenceNumber c a rs
  | some .card => generateCardTransactionId st c a rs
  | some .bank => generateBankTransactionId st c a rs
  | some .cash => generateCashReceiptNumber c a rs
  | none => generateGenericTransactionId c a rs

/-- The prefix the dispatch hands each mode. -/
def txnPrefix (mode : Option PaymentMode) (st : CState) : String :=
  match mode with
  | some .upi => "UPI"
  | some .card => cardPrefix st
  | some .bank => bankPrefix st
  | some .cash => "CASH"
  | none => "TXN"

/-- A string of exactly `k` decimal digits. -/
def isDigitStrB (s : String) (k : ℕ) : Bool :=
  s.length == k && s.data.all Char.isDigit

/-- A character of the class `[0-9A-Z]`. -/
def isUpAlnumB (ch : Char) : Bool :=
  ch.isDigit || (decide ('A' ≤ ch) && decide (ch ≤ 'Z'))

/-- A string of exactly `k` characters of the class `[0-9A-Z]`. -/
def isUpAlnumStrB (s : String) (k : ℕ) : Bool :=
  s.length == k && s.data.all isUpAlnumB

/-- Split a character list at every dash, as JavaScript `split('-')` would. -/
def splitDashAux : List Char → List Char → List (List Char)
  | [], acc => [acc.reverse]
  | ch :: rest, acc =>
      if ch = '-' then acc.reverse :: splitDashAux rest []
      else splitDashAux rest (ch :: acc)

/-- The dash-separated pieces of a string. -/
def splitDash (s : String) : List String :=
  (splitDashAux s.data []).map String.mk

/-- Decidable check of the reference shape
`{PREFIX}-\d{6}-\d{6}-\d{8}-[0-9A-Z]{7}` for a dash-free prefix. -/
def matchesRefShape (s : String) : Bool :=
  match splitDash s with
  | [_, d, t, a, u] => isDigitStrB d 6 && isDigitStrB t 6 && isDigitStrB a 8 &&
      isUpAlnumStrB u 7
  | _ => false

/-- A decimal digit character produced from a digit value. -/
lemma digitChar_isDigit (d : ℕ) (h : d < 10) : (Char.ofNat (48 + d)).isDigit = true := by
  interval_cases d <;> decide

/-- Splitting `String.append` into list append. -/
lemma strData_append (a b : String) : (a ++ b).data = a.data ++ b.data :=
  String.data_append a b

/-- Every character `natToCharsAux` emits is a decimal digit. -/
lemma natToCharsAux_digits :
    ∀ fuel n, n < fuel → ∀ ch ∈ natToCharsAux fuel n, ch.isDigit = true := by
  intro fuel
  induction fuel with
  | zero => intro n hn; omega
  | succ fuel ih =>
      intro n hn ch hch
      rw [natToCharsAux] at hch
      by_cases h10 : n < 10
      · simp only [if_pos h10, List.mem_singleton] at hch
        subst hch
        exact digitChar_isDigit n h10
      · simp only [if_neg h10, List.mem_append, List.mem_singleton] at hch
        rcases hch with hch | hch
        · have hd : n / 10 < n := Nat.div_lt_self (by omega) (by omega)
          exact ih (n / 10) (by omega) ch hch
        · subst hch
          exact digitChar_isDigit (n % 10) (Nat.mod_lt n (by omega))

/-- `natToCharsAux` is never empty when the fuel suffices. -/
lemma natToCharsAux_len_ge1 :
    ∀ fuel n, n < fuel → 1 ≤ (natToCharsAux fuel n).length := by
  intro fuel
  cases fuel with
  | zero => intro n hn; omega
  | succ fuel =>
      intro n hn
      rw [natToCharsAux]
      by_cases h10 : n < 10
      · simp [h10]
      · simp [h10]

/-- Length bound for `natToCharsAux`: numbers below `10 ^ k` take at most `k`
digits. -/
lemma natToCharsAux_len_le :
    ∀ fuel n k, n < fuel → n < 10 ^ k → 1 ≤ k →
      (natToCharsAux fuel n).length ≤ k := by
  intro fuel
  induction fuel with
  | zero => intro n k hn; omega
  | succ fuel ih =>
      intro n k hn hk hk1
      rw [natToCharsAux]
      by_cases h10 : n < 10
      · simp only [if_pos h10, List.length_singleton]
        omega
      · simp only [if_neg h10, List.length_append, List.length_singleton]
        have hk2 : 2 ≤ k := by
          by_contra hc
          push_neg at hc
          interval_cases k <;> simp_all <;> omega
        have hd : n / 10 < n := Nat.div_lt_self (by omega) (by omega)
        have hdiv : n / 10 < 10 ^ (k - 1) := by
          rw [Nat.div_lt_iff_lt_mul (by omega)]
          calc n < 10 ^ k := hk
          _ = 10 ^ (k - 1) * 10 := by rw [← pow_succ]; congr 1; omega
        have := ih (n / 10) (k - 1) (by omega) hdiv (by omega)
        omega

/-- Two-digit lower bound once the number reaches `10`. -/
lemma natToCharsAux_len_ge2 :
    ∀ fuel n, n < fuel → 10 ≤ n → 2 ≤ (natToCharsAux fuel n).length := by
  intro fuel
  cases fuel with
  | zero => intro n hn; omega
  | succ fuel =>
      intro n hn h10
      rw [natToCharsAux]
      simp only [if_neg (by omega : ¬ n < 10), List.length_append, List.length_singleton]
      have hd : n / 10 < n := Nat.div_lt_self (by omega) (by omega)
      have := natToCharsAux_len_ge1 fuel (n / 10) (by omega)
      omega

/-- All characters of `natRepr` are decimal digits. -/
lemma natRepr_digits (n : ℕ) : ∀ ch ∈ (natRepr n).data, ch.isDigit = true :=
  natToCharsAux_digits (n + 1) n (by omega)

/-- `natRepr` length upper bound. -/
lemma natRepr_len_le (n k : ℕ) (h : n < 10 ^ k) (hk : 1 ≤ k) :
    (natRepr n).length ≤ k :=
  natToCharsAux_len_le (n + 1) n k (by omega) h hk

/-- `natRepr` length lower bounds. -/
lemma natRepr_len_ge1 (n : ℕ) : 1 ≤ (natRepr n).length :=
  natToCharsAux_len_ge1 (n + 1) n (by omega)

/-- Numbers of at least `10` render with at least two digits. -/
lemma natRepr_len_ge2 (n : ℕ) (h : 10 ≤ n) : 2 ≤ (natRepr n).length :=
  natToCharsAux_len_ge2 (n + 1) n (by omega) h

/-- `padStartZ` of a digit string that fits in the width is a `w`-digit string. -/
lemma padStartZ_digit_shape (s : String) (w : ℕ)
    (hd : ∀ ch ∈ s.data, ch.isDigit = true) (hl : s.length ≤ w) :
    isDigitStrB (padStartZ s w) w = true := by
  have hlen : (padStartZ s w).length = w := by
    show (List.replicate (w - s.length) '0' ++ s.data).length = w
    rw [List.length_append, List.length_replicate]
    have : s.length = s.data.length := rfl
    omega
  simp only [isDigitStrB, Bool.and_eq_true, beq_iff_eq]
  refine ⟨hlen, ?_⟩
  show (List.replicate (w - s.length) '0' ++ s.data).all Char.isDigit = true
  rw [List.all_append, Bool.and_eq_true]
  constructor
  · rw [List.all_eq_true]
    intro ch hch
    rw [List.eq_of_mem_replicate hch]
    decide
  · rw [List.all_eq_true]
    exact hd

/-- `padStartZ` of a fitting `natRepr` is a `w`-digit string. -/
lemma natRepr_pad_shape (n w : ℕ) (h : n < 10 ^ w) (hw : 1 ≤ w) :
    isDigitStrB (padStartZ (natRepr n) w) w = true :=
  padStartZ_digit_shape (natRepr n) w (natRepr_digits n) (natRepr_len_le n w h hw)

/-- The last two characters of a four-digit year render as two digits. -/
lemma sliceLast2_shape (n : ℕ) (h : 10 ≤ n) :
    isDigitStrB (jsSliceLast2 (natRepr n)) 2 = true := by
  have h2 := natRepr_len_ge2 n h
  have hlen : (natRepr n).length = (natRepr n).data.length := rfl
  simp only [isDigitStrB, Bool.and_eq_true, beq_iff_eq]
  constructor
  · show ((natRepr n).data.drop ((natRepr n).data.length - 2)).length = 2
    rw [List.length_drop]
    omega
  · rw [List.all_eq_true]
    intro ch hch
    exact natRepr_digits n ch (List.mem_of_mem_drop hch)

/-- Concatenating digit strings. -/
lemma isDigitStrB_append (a b : String) (j k : ℕ)
    (ha : isDigitStrB a j = true) (hb : isDigitStrB b k = true) :
    isDigitStrB (a ++ b) (j + k) = true := by
  simp only [isDigitStrB, Bool.and_eq_true, beq_iff_eq] at *
  constructor
  · show (a ++ b).data.length = j + k
    rw [strData_append, List.length_append]
    have h1 : a.length = a.data.length := rfl
    have h2 : b.length = b.data.length := rfl
    omega
  · rw [strData_append, List.all_append, Bool.and_eq_true]
    exact ⟨ha.2, hb.2⟩

/-- The `DDMMYY` block of a well-formed clock is six digits. -/
lemma dateStr_shape (c : Clock) (h : c.WF) : isDigitStrB (dateStr c) 6 = true := by
  obtain ⟨h1, h2, h3, h4, _⟩ := h
  have hd : isDigitStrB (padStartZ (natRepr c.day) 2) 2 = true :=
    natRepr_pad_shape c.day 2 (by norm_num; omega) (by omega)
  have hm : isDigitStrB (padStartZ (natRepr (c.month0 + 1)) 2) 2 = true :=
    natRepr_pad_shape (c.month0 + 1) 2 (by norm_num; omega) (by omega)
  have hy : isDigitStrB (jsSliceLast2 (natRepr c.year)) 2 = true :=
    sliceLast2_shape c.year (by omega)
  have := isDigitStrB_append _ _ _ _ (isDigitStrB_append _ _ _ _ hd hm) hy
  exact this

/-- The `HHMMSS` block of a well-formed clock is six digits. -/
lemma timeStr_shape (c : Clock) (h : c.WF) : isDigitStrB (timeStr c) 6 = true := by
  obtain ⟨_, _, _, _, _, h6, h7, h8, _⟩ := h
  have hh : isDigitStrB (padStartZ (natRepr c.hours) 2) 2 = true :=
    natRepr_pad_shape c.hours 2 (by norm_num; omega) (by omega)
  have hm : isDigitStrB (padStartZ (natRepr c.minutes) 2) 2 = true :=
    natRepr_pad_shape c.minutes 2 (by norm_num; omega) (by omega)
  have hs : isDigitStrB (padStartZ (natRepr c.seconds) 2) 2 = true :=
    natRepr_pad_shape c.seconds 2 (by norm_num; omega) (by omega)
  exact isDigitStrB_append _ _ _ _ (isDigitStrB_append _ _ _ _ hh hm) hs

/-- The padded amount block is eight digits whenever the floored amount is
non-negative and below `10 ^ 8`. -/
lemma amountStr_shape (q : ℚ) (h0 : 0 ≤ q) (h8 : Int.floor q < 10 ^ 8) :
    isDigitStrB (amountStr (some q)) 8 = true := by
  have hfl : 0 ≤ Int.floor q := Int.floor_nonneg.mpr h0
  have : amountStr (some q) = padStartZ (natRepr (Int.floor q).toNat) 8 := by
    simp only [amountStr, intRepr, if_neg (by omega : ¬ Int.floor q < 0)]
  rw [this]
  apply natRepr_pad_shape
  · have : ((Int.floor q).toNat : ℤ) < 10 ^ 8 := by
      rw [Int.toNat_of_nonneg hfl]; exact_mod_cast h8
    exact_mod_cast this
  · omega

/-- Every random draw yields a character of the class `[0-9A-Z]`. -/
lemma suffixChar_upAlnum (i : Fin 36) : isUpAlnumB (suffixChar i) = true := by
  have : ∀ j : Fin 36, isUpAlnumB (suffixChar j) = true := by decide
  exact this i

/-- Digit strings are also `[0-9A-Z]` strings. -/
lemma isDigitStrB_upAlnum (s : String) (k : ℕ) (h : isDigitStrB s k = true) :
    isUpAlnumStrB s k = true := by
  simp only [isDigitStrB, isUpAlnumStrB, Bool.and_eq_true, beq_iff_eq,
    List.all_eq_true] at *
  refine ⟨h.1, fun ch hch => ?_⟩
  simp only [isUpAlnumB, Bool.or_eq_true]
  exact Or.inl (h.2 ch hch)

/-- Concatenating `[0-9A-Z]` strings. -/
lemma isUpAlnumStrB_append (a b : String) (j k : ℕ)
    (ha : isUpAlnumStrB a j = true) (hb : isUpAlnumStrB b k = true) :
    isUpAlnumStrB (a ++ b) (j + k) = true := by
  simp only [isUpAlnumStrB, Bool.and_eq_true, beq_iff_eq] at *
  constructor
  · show (a ++ b).data.length = j + k
    rw [strData_append, List.length_append]
    have h1 : a.length = a.data.length := rfl
    have h2 : b.length = b.data.length := rfl
    omega
  · rw [strData_append, List.all_append, Bool.and_eq_true]
    exact ⟨ha.2, hb.2⟩

/-- The `uniqueId` suffix of a well-formed clock and four draws is seven
`[0-9A-Z]` characters. -/
lemma uniqueId_shape (c : Clock) (rs : List (Fin 36)) (h : c.WF)
    (hlen : rs.length = 4) : isUpAlnumStrB (uniqueId c rs) 7 = true := by
  obtain ⟨_, _, _, _, _, _, _, _, h9, _⟩ := h
  have hms : isUpAlnumStrB (padStartZ (natRepr c.millis) 3) 3 = true := by
    apply isDigitStrB_upAlnum
    exact natRepr_pad_shape c.millis 3 (by norm_num; omega) (by omega)
  have hsu : isUpAlnumStrB (randomSuffix rs) 4 = true := by
    simp only [isUpAlnumStrB, randomSuffix, Bool.and_eq_true, beq_iff_eq]
    constructor
    · show (rs.map suffixChar).length = 4
      rw [List.length_map]; exact hlen
    · rw [List.all_eq_true]
      intro ch hch
      rw [List.mem_map] at hch
      obtain ⟨i, _, hi⟩ := hch
      rw [← hi]
      exact suffixChar_upAlnum i
  exact isUpAlnumStrB_append _ _ _ _ hms hsu

/-- A `message` / `exceptionMessage` pair on an error body; the empty string
stands for a property that is absent or empty (both falsy, indistinguishable
to the source's truthiness tests). -/
structure ErrBody where
  message : String
  exceptionMessage : String
deriving DecidableEq

/-- A JavaScript value caught as an error: `null` or `undefined` (`nullV`), a
string, or any other object — possibly carrying a truthy `body` property. -/
inductive JsError
  | nullV
  | str (s : String)
  | obj (body : Option ErrBody)
deriving DecidableEq

/-- `getErrorMessage`.  Reading `error.body` on `null` or `undefined` throws a
`TypeError`, modelled as `Except.error`; on a string the `body` reads give
`undefined` and the `typeof` check returns the string itself; on any other
object the two body properties are tried in order with `'An error occurred'`
as the fallback. -/
def getErrorMessage : JsError → Except Unit String
  | .nullV => .error ()
  | .str s => .ok s
  | .obj body => .ok (match body with
      | some b =>
          if b.message ≠ "" then b.message
          else if b.exceptionMessage ≠ "" then b.exceptionMessage
          else "An error occurred"
      | none => "An error occurred")

/-- The extraction rule as the specification describes it: the structured
body's `message`, else its `exceptionMessage`, else the error itself when it
is a string, else a fixed fallback.  (Defined for comparison with
`getErrorMessage`; its value on `nullV` is immaterial.) -/
def specErrorMessage : JsError → String
  | .nullV => ""
  | .str s => s
  | .obj body => match body with
      | some b =>
          if b.message ≠ "" then b.message
          else if b.exceptionMessage ≠ "" then b.exceptionMessage
          else "An error occurred"
      | none => "An error occurred"

/-- The date part of `new Date().toISOString().split('T')[0]`:
`YYYY-MM-DD` built from the UTC readings. -/
def isoDate (c : Clock) : String :=
  padStartZ (natRepr c.utcYear) 4 ++ "-" ++ padStartZ (natRepr (c.utcMonth0 + 1)) 2 ++
    "-" ++ padStartZ (natRepr c.utcDay) 2

/-- The wrapper object `handleSubmitPayment` builds and sends to
`createInvoicePayment`.  The spread `...formFieldsCopy` lands in `fields`;
the named properties do not collide with any dynamic field name. -/
structure PaymentWrapper where
  invoiceId : Option String
  customerId : Option String
  paymentAmount : Option ℚ
  paymentDate : String
  paymentMode : Option PaymentMode
  paymentStatus : String
  paymentNote : String
  fields : List (String × String)
deriving DecidableEq

/-- The wrapper property that receives the generated reference for a mode
(the `switch` in `handleSubmitPayment`). -/
def refFieldName : PaymentMode → String
  | .upi => "upiReferenceNumber"
  | .card => "transactionId"
  | .bank => "transactionReference"
  | .cash => "cashReceiptNumber"

/-- The four mode-specific reference property names. -/
def refNames : List String :=
  ["upiReferenceNumber", "transactionId", "transactionReference", "cashReceiptNumber"]

/-- Assembly of the wrapper: copy `formFields`, generate the transaction
reference from the selected mode and `parseFloat(paymentAmount)`, store it
under the mode's reference property (the `switch` has no `default`, so no
property is added when no mode is selected), and attach the named fields. -/
def buildWrapper (st : CState) (c : Clock) (rs : List (Fin 36)) : PaymentWrapper :=
  let amt := st.paymentAmount.parseFloat
  let txn := generateTransactionId st.selectedPaymentMode st c amt rs
  let ffc := match st.selectedPaymentMode with
    | some m => objSet st.formFields (refFieldName m) txn
    | none => st.formFields
  ⟨st.invoiceData.id, st.invoiceData.customerId, amt, isoDate c,
    st.selectedPaymentMode, "Received", st.paymentNote, ffc⟩

/-- The outcome of the awaited `createInvoicePayment` call: the promise
resolves (with a truthy or falsy result) or rejects with an error value. -/
inductive RemoteOutcome
  | resolved (truthy : Bool)
  | rejected (e : JsError)
deriving DecidableEq

/-- The externally visible actions the submit flow performs. -/
inductive Effect
  | createPayment (w : PaymentWrapper)
  | refreshInvoice
  | refreshHistory
  | toast (title msg variant : String)
deriving DecidableEq

/-- `refreshAllData`: each `refreshApex` runs only when the corresponding
wired result has been recorded; its own errors are caught and logged. -/
def refreshAllEffects (st : CState) : List Effect :=
  (if st.wiredInvoiceResult then [Effect.refreshInvoice] else []) ++
    (if st.wiredHistoryResult then [Effect.refreshHistory] else [])

/-- The state left behind once the awaited call settles: on a truthy result
the form is reset, in every case the `finally` clause clears `isSaving`. -/
def submitContinuation (st : CState) (out : RemoteOutcome) : CState :=
  match out with
  | .resolved true => { resetPaymentForm st with isSaving := false }
  | .resolved false => { st with isSaving := false }
  | .rejected _ => { st with isSaving := false }

/-- `handleSubmitPayment` as a function of the starting state, the wall clock,
the random draws and the remote outcome, returning the final state and the
effects in program order.  A validation failure returns before `isSaving` is
set and before any call is issued.  On a truthy result: success toast, form
reset, then both refreshes.  On rejection the extracted message is toasted;
when extraction itself throws (`null` error) no toast appears, though
`finally` still clears `isSaving`. -/
def handleSubmitPayment (st : CState) (c : Clock) (rs : List (Fin 36))
    (out : RemoteOutcome) : CState × List Effect :=
  match validateResult st with
  | some m => (st, [Effect.toast "Validation Error" m "error"])
  | none =>
      let st1 : CState := { st with isSaving := true }
      let w := buildWrapper st c rs
      match out with
      | .resolved true =>
          (submitContinuation st1 (.resolved true),
            Effect.createPayment w ::
              Effect.toast "Success" "Payment recorded successfully" "success" ::
                refreshAllEffects st1)
      | .resolved false =>
          (submitContinuation st1 (.resolved false), [Effect.createPayment w])
      | .rejected e =>
          (submitContinuation st1 (.rejected e),
            Effect.createPayment w ::
              (match getErrorMessage e with
               | .ok m => [Effect.toast "Error" m "error"]
               | .error _ => []))

/-- The component state together with the number of `createInvoicePayment`
calls currently awaiting settlement. -/
structure SysState where
  comp : CState
  inFlight : ℕ
deriving DecidableEq

/-- The freshly constructed component with no call in flight. -/
def initSys : SysState :=
  ⟨initialCState, 0⟩

/-- The `wiredInvoice` handler receiving data. -/
def wireInvoiceApply (st : CState) (d : InvoiceData) : CState :=
  { st with invoiceData := d, wiredInvoiceResult := true, errorMessage := "", paymentType := none }

/-- The `wiredInvoice` handler receiving an error whose message extraction
succeeded. -/
def wireInvoiceFail (st : CState) (msg : String) : CState :=
  { st with invoiceData := emptyInvoice, wiredInvoiceResult := true, errorMessage := msg }

/-- One cooperative step of the UI event loop.  User handlers run atomically
up to their first `await`; a submission click is only deliverable while the
pay button is enabled (`isPayButtonDisabled` gates the template's button), and
the part of `handleSubmitPayment` behind the `await` runs as `settle`. -/
inductive SysStep : SysState → SysState → Prop
  | modeSelect (s : SysState) (m : PaymentMode) :
      SysStep s ⟨handlePaymentModeSelect s.comp m, s.inFlight⟩
  | amountChange (s : SysState) (a : AmountInput) :
      SysStep s ⟨{ s.comp with paymentAmount := a }, s.inFlight⟩
  | fieldChange (s : SysState) (k v : String) :
      SysStep s ⟨{ s.comp with formFields := objSet s.comp.formFields k v }, s.inFlight⟩
  | noteChange (s : SysState) (t : String) :
      SysStep s ⟨{ s.comp with paymentNote := t }, s.inFlight⟩
  | errorClose (s : SysState) :
      SysStep s ⟨{ s.comp with errorMessage := "" }, s.inFlight⟩
  | wireInvoiceData (s : SysState) (d : InvoiceData) :
      SysStep s ⟨wireInvoiceApply s.comp d, s.inFlight⟩
  | wireInvoiceFailed (s : SysState) (msg : String) :
      SysStep s ⟨wireInvoiceFail s.comp msg, s.inFlight⟩
  | wireHistory (s : SysState) :
      SysStep s ⟨{ s.comp with wiredHistoryResult := true }, s.inFlight⟩
  | loadingToggle (s : SysState) (b : Bool) :
      SysStep s ⟨{ s.comp with isLoading := b }, s.inFlight⟩
  | clickPayInvalid (s : SysState) (m : String) :
      isPayButtonDisabled s.comp = false → validateResult s.comp = some m →
      SysStep s s
  | clickPayValid (s : SysState) :
      isPayButtonDisabled s.comp = false → validateResult s.comp = none →
      SysStep s ⟨{ s.comp with isSaving := true }, s.inFlight + 1⟩
  | settle (s : SysState) (out : RemoteOutcome) :
      1 ≤ s.inFlight →
      SysStep s ⟨submitContinuation s.comp out, s.inFlight - 1⟩

/-- States the component can be in, starting from construction. -/
inductive SysReachable : SysState → Prop
  | init : SysReachable initSys
  | step (s s' : SysState) : SysReachable s → SysStep s s' → SysReachable s'

/-- The `finally` clause always leaves `isSaving` cleared. -/
lemma submitContinuation_isSaving (st : CState) (out : RemoteOutcome) :
    (submitContinuation st out).isSaving = false := by
  cases out with
  | resolved b => cases b <;> rfl
  | rejected e => rfl

/-- An enabled pay button means no save is in progress. -/
lemma enabled_not_saving (st : CState) (h : isPayButtonDisabled st = false) :
    st.isSaving = false := by
  simp only [isPayButtonDisabled, Bool.or_eq_false_iff] at h
  exact h.2

/-- Unfolding `List.lookup` over a cons cell with propositional equality. -/
lemma lookup_cons (a k v : String) (l : List (String × String)) :
    List.lookup a ((k, v) :: l) = if a = k then some v else List.lookup a l := by
  by_cases h : a = k
  · subst h; simp [List.lookup]
  · rw [if_neg h]
    simp only [List.lookup]
    rw [show (a == k) = false from beq_eq_false_iff_ne.mpr h]

/-- Overwriting a property then reading it back. -/
lemma objGet_objSet_self (m : List (String × String)) (k v : String) :
    objGet (objSet m k v) k = some v := by
  induction m with
  | nil => simp [objGet, objSet, lookup_cons]
  | cons p rest ih =>
      by_cases h : p.1 = k
      · simp [objGet, objSet, h, lookup_cons]
      · obtain ⟨pk, pv⟩ := p
        simp only [objSet, if_neg h]
        rw [objGet, lookup_cons, if_neg (by simpa using Ne.symm h)]
        exact ih

/-- Overwriting one property leaves the others untouched. -/
lemma objGet_objSet_ne (m : List (String × String)) (k v k' : String)
    (h : k' ≠ k) : objGet (objSet m k v) k' = objGet m k' := by
  induction m with
  | nil => simp [objGet, objSet, lookup_cons, h]
  | cons p rest ih =>
      obtain ⟨pk, pv⟩ := p
      by_cases hp : pk = k
      · subst hp
        have e : objSet ((pk, pv) :: rest) pk v = (pk, v) :: rest := by
          simp [objSet]
        rw [e, objGet, lookup_cons, if_neg h, objGet, lookup_cons, if_neg h]
      · simp only [objSet, if_neg hp]
        rw [objGet, lookup_cons, objGet, lookup_cons]
        by_cases hk' : k' = pk
        · simp [hk']
        · rw [if_neg hk', if_neg hk']
          exact ih

/-- A key outside every stored property reads as `undefined`. -/
lemma objGet_eq_none (m : List (String × String)) (k : String)
    (h : ∀ p ∈ m, p.1 ≠ k) : objGet m k = none := by
  induction m with
  | nil => rfl
  | cons p rest ih =>
      obtain ⟨pk, pv⟩ := p
      have hp : pk ≠ k := h (pk, pv) (List.mem_cons_self _ _)
      rw [objGet, lookup_cons, if_neg (Ne.symm hp)]
      exact ih fun q hq => h q (List.mem_cons_of_mem _ hq)

/-- Lookup in a map seeding every listed name with the empty string. -/
lemma lookup_seeded (names : List String) (k : String) :
    List.lookup k (names.map (fun n => (n, ""))) =
      if names.contains k then some "" else none := by
  induction names with
  | nil => simp [List.lookup]
  | cons n rest ih =>
      rw [List.map_cons, lookup_cons]
      by_cases h : k = n
      · subst h
        simp [List.contains_cons]
      · rw [if_neg h, ih]
        simp [List.contains_cons, h]

/-- JavaScript `q || 0` is the identity on rationals. -/
lemma jsOrZero_eq (q : ℚ) : jsOrZero q = q := by
  unfold jsOrZero
  split <;> simp_all

/-- A sample fetched invoice with an outstanding balance of `1000`. -/
def invSample : InvoiceData :=
  ⟨some "INV-001", some "CUS-001", some 1500, some 500, some 1000, some "USD"⟩

/-- A completely filled cash form over `invSample`, amount `500`. -/
def stCash : CState :=
  ⟨invSample, true, true, some .cash, .numA 500, "note", none, true,
    [("cashReceivedBy", "Asha"), ("cashReceiptNumber", "R-77")], false, false, ""⟩

/-- The same filled cash form at the boundary amount `1000 = outstanding`. -/
def stCashBoundary : CState :=
  ⟨invSample, true, true, some .cash, .numA 1000, "note", none, true,
    [("cashReceivedBy", "Asha"), ("cashReceiptNumber", "R-77")], false, false, ""⟩

/-- A filled cash form whose amount input is a non-numeric string
(`parseFloat` gives `NaN`). -/
def stNaNAmount : CState :=
  ⟨invSample, true, true, some .cash, .nanA, "", none, true,
    [("cashReceivedBy", "Asha"), ("cashReceiptNumber", "R-77")], false, false, ""⟩

/-- A filled cash form with a non-numeric amount while no invoice data is
loaded. -/
def stNoInvoice : CState :=
  ⟨emptyInvoice, true, true, some .cash, .nanA, "", none, true,
    [("cashReceivedBy", "Asha"), ("cashReceiptNumber", "R-77")], false, false, ""⟩

/-- A cash form with numeric amount while no invoice data is loaded. -/
def stNoInvoiceNum : CState :=
  ⟨emptyInvoice, true, true, some .cash, .numA 500, "", none, true,
    [("cashReceivedBy", "Asha"), ("cashReceiptNumber", "R-77")], false, false, ""⟩

/-- A UPI form with amount `1500` against outstanding `1000` and still-empty
required fields. -/
def stUpiOver : CState :=
  ⟨invSample, true, true, some .upi, .numA 1500, "", none, true,
    [("upiAppName", ""), ("upiId", ""), ("nameOnUpi", "")], false, false, ""⟩

/-- A sample clock: 7 March 2026, 13:45:09.123 (same date in UTC). -/
def clockSample : Clock := ⟨7, 2, 2026, 13, 45, 9, 123, 7, 2, 2026⟩

/-- Four sample random draws. -/
def rsSample : List (Fin 36) := [0, 10, 35, 5]

/-- Characterization of a passing validation in terms of the three checks. -/
lemma validateResult_none_iff (st : CState) :
    validateResult st = none ↔
      (st.paymentAmount.truthy = true ∧ jsLe st.paymentAmount.parseFloat 0 = false ∧
       jsGt st.paymentAmount.parseFloat (jsOrZero (outstandingAmount st)) = false ∧
       requiredFilled st = true) := by
  unfold validateResult
  split_ifs with h1 h2
  · constructor
    · intro hc; exact absurd hc (by simp)
    · rintro ⟨ht, hle, _, _⟩
      rw [ht, hle] at h1
      simp at h1
  · constructor
    · intro hc; exact absurd hc (by simp)
    · rintro ⟨_, _, hgt, _⟩
      rw [hgt] at h2
      simp at h2
  · have h1f : (!st.paymentAmount.truthy || jsLe st.paymentAmount.parseFloat 0) = false := by
      cases hb : (!st.paymentAmount.truthy || jsLe st.paymentAmount.parseFloat 0) with
      | true => exact absurd hb h1
      | false => rfl
    rw [Bool.or_eq_false_iff] at h1f
    obtain ⟨h1t, h1le⟩ := h1f
    cases hf : (paymentModeFieldsLookup st.selectedPaymentMode).find?
        (fun f => f.required && fieldEmpty st f.name) with
    | some f =>
        simp only [hf]
        constructor
        · intro hc; exact absurd hc (by simp)
        · rintro ⟨_, _, _, hall⟩
          have hfmem := List.find?_some hf
          have hmem := List.mem_of_find?_eq_some hf
          rw [requiredFilled, List.all_eq_true] at hall
          have := hall f hmem
          rw [hfmem] at this
          simp at this
    | none =>
        simp only [hf]
        refine ⟨fun _ => ⟨by simpa using h1t, by simpa using h1le, by simpa using h2, ?_⟩,
          fun _ => trivial⟩
        rw [requiredFilled, List.all_eq_true]
        intro f hfm
        have hnone := List.find?_eq_none.mp hf f hfm
        cases hr : f.required with
        | false => simp [hr]
        | true =>
            simp only [hr, Bool.true_and] at hnone
            have he : fieldEmpty st f.name = false := by
              cases hb : fieldEmpty st f.name with
              | true => exact absurd hb hnone
              | false => rfl
            simp [hr, he]

/-- C1 (amended): on every form state whose amount input is a string parsing
to a number `q`, `validatePaymentForm` accepts exactly when `0 < q`, `q` does
not exceed the outstanding amount (acceptance at `q = outstanding`, rejection
above it), and every required field of the selected mode is non-empty; and a
`null` or empty amount input is always rejected.  (The original claim's "if
and only if the amount is a number" fails for non-numeric amount strings,
whose `NaN` passes both numeric comparisons — see the counterexample.) -/
theorem validatePaymentForm_iff_on_parsed :
    (∀ (st : CState) (q : ℚ), st.paymentAmount = .numA q →
      (validatePaymentForm st = true ↔
        (0 < q ∧ q ≤ outstandingAmount st ∧ requiredFilled st = true))) ∧
    (∀ st : CState, st.paymentAmount = .nullA ∨ st.paymentAmount = .emptyA →
      validatePaymentForm st = false) := by
  constructor
  · intro st q hq
    rw [validatePaymentForm, Option.isNone_iff_eq_none, validateResult_none_iff, hq]
    simp only [AmountInput.truthy, AmountInput.parseFloat, jsLe, jsGt, jsOrZero_eq,
      true_and, decide_eq_false_iff_not, not_le, not_lt]
  · intro st h
    rcases h with h | h <;>
      simp [validatePaymentForm, validateResult, h, AmountInput.truthy]

/-- C1 (counterexample): a completely filled cash form whose amount input is a
non-numeric string is accepted by `validatePaymentForm` although its
`parseFloat` is `NaN` — not a number greater than zero — because `NaN <= 0`
and `NaN > outstanding` are both false in JavaScript. -/
theorem validatePaymentForm_accepts_nan :
    validatePaymentForm stNaNAmount = true ∧
      stNaNAmount.paymentAmount.parseFloat = none ∧
      stNaNAmount.paymentAmount.truthy = true := by
  decide

/-- C1 (witness): the boundary state with amount equal to the outstanding
`1000` and all cash fields filled is accepted. -/
theorem validatePaymentForm_iff_on_parsed_wit :
    validatePaymentForm stCashBoundary = true :=
  (validatePaymentForm_iff_on_parsed.1 stCashBoundary 1000 rfl).mpr
    ⟨by decide, by decide, by decide⟩

/-- C3 (confirmed): selecting any of the four payment modes replaces the
form-field mapping by exactly the selected mode's required-field set with
every entry the empty string — a key reads `some ""` precisely when it is one
of the mode's field names and `undefined` otherwise, so no field of a
previously selected mode survives — and records the mode and shows the form. -/
theorem handlePaymentModeSelect_fields_exact :
    ∀ (st : CState) (m : PaymentMode) (k : String),
      objGet (handlePaymentModeSelect st m).formFields k =
        (if (requiredNames m).contains k then some "" else none) ∧
      (handlePaymentModeSelect st m).selectedPaymentMode = some m ∧
      (handlePaymentModeSelect st m).showPaymentForm = true := by
  intro st m k
  refine ⟨?_, rfl, rfl⟩
  cases m with
  | cash =>
      have e : (paymentModeFieldsLookup (some .cash)).foldl
          (fun acc f => objSet acc f.name "") ([] : List (String × String)) =
          (requiredNames .cash).map (fun n => (n, "")) := by decide
      show objGet ((paymentModeFieldsLookup (some .cash)).foldl
        (fun acc f => objSet acc f.name "") []) k = _
      rw [e]
      exact lookup_seeded _ k
  | upi =>
      have e : (paymentModeFieldsLookup (some .upi)).foldl
          (fun acc f => objSet acc f.name "") ([] : List (String × String)) =
          (requiredNames .upi).map (fun n => (n, "")) := by decide
      show objGet ((paymentModeFieldsLookup (some .upi)).foldl
        (fun acc f => objSet acc f.name "") []) k = _
      rw [e]
      exact lookup_seeded _ k
  | card =>
      have e : (paymentModeFieldsLookup (some .card)).foldl
          (fun acc f => objSet acc f.name "") ([] : List (String × String)) =
          (requiredNames .card).map (fun n => (n, "")) := by decide
      show objGet ((paymentModeFieldsLookup (some .card)).foldl
        (fun acc f => objSet acc f.name "") []) k = _
      rw [e]
      exact lookup_seeded _ k
  | bank =>
      have e : (paymentModeFieldsLookup (some .bank)).foldl
          (fun acc f => objSet acc f.name "") ([] : List (String × String)) =
          (requiredNames .bank).map (fun n => (n, "")) := by decide
      show objGet ((paymentModeFieldsLookup (some .bank)).foldl
        (fun acc f => objSet acc f.name "") []) k = _
      rw [e]
      exact lookup_seeded _ k

/-- C10 (amended): with no invoice data loaded the outstanding amount getter
defaults to `0`, and `validatePaymentForm` rejects every input whose amount
field is `null`, empty, or a string parsing to a number (positive amounts
exceed the zero outstanding, the rest are invalid).  A non-numeric amount
string escapes both numeric checks — see the counterexample. -/
theorem empty_invoice_rejects_parsed :
    ∀ st : CState, st.invoiceData = emptyInvoice → st.paymentAmount ≠ .nanA →
      outstandingAmount st = 0 ∧ validatePaymentForm st = false := by
  intro st hinv hnan
  have hout : outstandingAmount st = 0 := by
    rw [outstandingAmount, hinv]; rfl
  refine ⟨hout, ?_⟩
  cases ha : st.paymentAmount with
  | nullA => simp [validatePaymentForm, validateResult, ha, AmountInput.truthy]
  | emptyA => simp [validatePaymentForm, validateResult, ha, AmountInput.truthy]
  | nanA => exact absurd ha hnan
  | numA q =>
      by_cases hq : q ≤ 0
      · simp [validatePaymentForm, validateResult, ha, AmountInput.truthy,
          AmountInput.parseFloat, jsLe, hq]
      · simp [validatePaymentForm, validateResult, ha, AmountInput.truthy,
          AmountInput.parseFloat, jsLe, jsGt, hq, hout, jsOrZero_eq, not_le.mp hq]

/-- C10 (counterexample): with `invoiceData = {}` a filled cash form whose
amount input is a non-numeric string still passes `validatePaymentForm`, and
submitting it issues a `createPayment` call — the remote call is reachable
without fetched invoice data. -/
theorem empty_invoice_nan_reaches_create :
    stNoInvoice.invoiceData = emptyInvoice ∧
      validatePaymentForm stNoInvoice = true ∧
      (handleSubmitPayment stNoInvoice clockSample rsSample (.resolved true)).2.head? =
        some (Effect.createPayment (buildWrapper stNoInvoice clockSample rsSample)) := by
  decide

/-- C10 (witness): the amended rejection applied to a filled cash form with
numeric amount `500` and no invoice data. -/
theorem empty_invoice_rejects_parsed_wit :
    outstandingAmount stNoInvoiceNum = 0 ∧ validatePaymentForm stNoInvoiceNum = false :=
  empty_invoice_rejects_parsed stNoInvoiceNum rfl (by decide)

/-- C2 (amended): for every mode (including the no-mode `default` branch),
state, well-formed clock, four random draws, and every amount that parses to
a number whose floor lies in `[0, 10^8)`, the generated reference is the mode
prefix (`CASH`, `UPI`, `TXN`, or the user-entered card type / bank name
truncated to four characters and uppercased), then dash-separated `DDMMYY`
(six digits), `HHMMSS` (six digits), the floored amount zero-padded to eight
digits, and seven `[0-9A-Z]` characters (three millisecond digits plus four
random alphanumerics).  (The original claim's unrestricted "every amount"
fails: `padStart` never truncates, so a floored amount of `10^8` or more
yields nine or more digits — see the counterexample.) -/
theorem generateTransactionId_shape :
    ∀ (mode : Option PaymentMode) (st : CState) (c : Clock) (q : ℚ)
      (rs : List (Fin 36)),
      c.WF → rs.length = 4 → 0 ≤ q → Int.floor q < 10 ^ 8 →
      generateTransactionId mode st c (some q) rs =
        txnPrefix mode st ++ "-" ++ dateStr c ++ "-" ++ timeStr c ++ "-" ++
          amountStr (some q) ++ "-" ++ uniqueId c rs ∧
      isDigitStrB (dateStr c) 6 = true ∧
      isDigitStrB (timeStr c) 6 = true ∧
      isDigitStrB (amountStr (some q)) 8 = true ∧
      isUpAlnumStrB (uniqueId c rs) 7 = true := by
  intro mode st c q rs hwf hrs hq0 hq8
  refine ⟨?_, dateStr_shape c hwf, timeStr_shape c hwf,
    amountStr_shape q hq0 hq8, uniqueId_shape c rs hwf hrs⟩
  cases mode with
  | none =>
      show generateGenericTransactionId c (some q) rs = _
      rw [generateGenericTransactionId, txnPrefix,
        show ("TXN" ++ "-" : String) = "TXN-" from rfl]
  | some m =>
      cases m with
      | cash =>
          show generateCashReceiptNumber c (some q) rs = _
          rw [generateCashReceiptNumber, txnPrefix,
            show ("CASH" ++ "-" : String) = "CASH-" from rfl]
      | upi =>
          show generateUpiReferenceNumber c (some q) rs = _
          rw [generateUpiReferenceNumber, txnPrefix,
            show ("UPI" ++ "-" : String) = "UPI-" from rfl]
      | card => rfl
      | bank => rfl

/-- C2 (counterexample): at the reachable amount `10^8` (an outstanding
balance can be that large) the padded amount block has nine digits, so the
generated cash reference fails the claimed
`{PREFIX}-\d{6}-\d{6}-\d{8}-[0-9A-Z]{7}` shape; the dash-split of the
generated string exhibits the offending nine-digit block. -/
theorem generateTransactionId_amount_overflow :
    generateTransactionId (some .cash) stCash clockSample (some 100000000) rsSample =
      "CASH-070326-134509-100000000-123AK9F" ∧
    matchesRefShape
      (generateTransactionId (some .cash) stCash clockSample (some 100000000) rsSample) =
      false := by
  decide

/-- C2 (witness): the shape theorem applied to the cash mode at amount `500`
on the sample clock and draws. -/
theorem generateTransactionId_shape_wit :
    generateTransactionId (some .cash) stCash clockSample (some 500) rsSample =
      txnPrefix (some .cash) stCash ++ "-" ++ dateStr clockSample ++ "-" ++
        timeStr clockSample ++ "-" ++ amountStr (some 500) ++ "-" ++
        uniqueId clockSample rsSample ∧
    isDigitStrB (dateStr clockSample) 6 = true ∧
    isDigitStrB (timeStr clockSample) 6 = true ∧
    isDigitStrB (amountStr (some 500)) 8 = true ∧
    isUpAlnumStrB (uniqueId clockSample rsSample) 7 = true :=
  generateTransactionId_shape (some .cash) stCash clockSample 500 rsSample
    (by unfold Clock.WF; decide) (by decide) (by decide) (by decide)

/-- C4 (confirmed): whenever validation passes and the awaited
`createInvoicePayment` call resolves with a record id (a truthy result), the
form state is fully cleared — mode, amount, note, payment type and dynamic
fields back to their initial empty values, form hidden, saving flag down —
and, the wire results being recorded, both the invoice and the payment
history refreshes are issued. -/
theorem submit_success_resets_and_refetches :
    ∀ (st : CState) (c : Clock) (rs : List (Fin 36)),
      validateResult st = none → st.wiredInvoiceResult = true →
      st.wiredHistoryResult = true →
      (handleSubmitPayment st c rs (.resolved true)).1.selectedPaymentMode = none ∧
      (handleSubmitPayment st c rs (.resolved true)).1.paymentAmount = .nullA ∧
      (handleSubmitPayment st c rs (.resolved true)).1.paymentNote = "" ∧
      (handleSubmitPayment st c rs (.resolved true)).1.paymentType = none ∧
      (handleSubmitPayment st c rs (.resolved true)).1.formFields = [] ∧
      (handleSubmitPayment st c rs (.resolved true)).1.showPaymentForm = false ∧
      (handleSubmitPayment st c rs (.resolved true)).1.isSaving = false ∧
      Effect.refreshInvoice ∈ (handleSubmitPayment st c rs (.resolved true)).2 ∧
      Effect.refreshHistory ∈ (handleSubmitPayment st c rs (.resolved true)).2 := by
  intro st c rs hv hwi hwh
  have he : handleSubmitPayment st c rs (.resolved true) =
      (submitContinuation { st with isSaving := true } (.resolved true),
        Effect.createPayment (buildWrapper st c rs) ::
          Effect.toast "Success" "Payment recorded successfully" "success" ::
            refreshAllEffects { st with isSaving := true }) := by
    simp [handleSubmitPayment, hv]
  rw [he]
  refine ⟨rfl, rfl, rfl, rfl, rfl, rfl, rfl, ?_, ?_⟩ <;>
    simp [refreshAllEffects, hwi, hwh]

/-- C4 (witness): the success path applied to the filled cash form `stCash`. -/
theorem submit_success_resets_and_refetches_wit :
    (handleSubmitPayment stCash clockSample rsSample (.resolved true)).1.selectedPaymentMode = none ∧
    (handleSubmitPayment stCash clockSample rsSample (.resolved true)).1.paymentAmount = .nullA ∧
    (handleSubmitPayment stCash clockSample rsSample (.resolved true)).1.paymentNote = "" ∧
    (handleSubmitPayment stCash clockSample rsSample (.resolved true)).1.paymentType = none ∧
    (handleSubmitPayment stCash clockSample rsSample (.resolved true)).1.formFields = [] ∧
    (handleSubmitPayment stCash clockSample rsSample (.resolved true)).1.showPaymentForm = false ∧
    (handleSubmitPayment stCash clockSample rsSample (.resolved true)).1.isSaving = false ∧
    Effect.refreshInvoice ∈ (handleSubmitPayment stCash clockSample rsSample (.resolved true)).2 ∧
    Effect.refreshHistory ∈ (handleSubmitPayment stCash clockSample rsSample (.resolved true)).2 :=
  submit_success_resets_and_refetches stCash clockSample rsSample (by decide) rfl rfl

/-- C6 (amended): when the awaited call rejects after a passing validation,
the entered form state is left exactly as it was with only the saving flag
cleared (the component is interactive and idle again), and — provided the
rejection value is not `null`/`undefined` — an error toast carrying the
extracted message is dispatched.  (For a `null` rejection the extraction
itself throws while reading `error.body`, so no toast appears — see the
counterexample.) -/
theorem submit_failure_preserves_entry :
    ∀ (st : CState) (c : Clock) (rs : List (Fin 36)) (e : JsError),
      validateResult st = none → e ≠ JsError.nullV →
      (handleSubmitPayment st c rs (.rejected e)).1 = { st with isSaving := false } ∧
      Effect.toast "Error" (specErrorMessage e) "error" ∈
        (handleSubmitPayment st c rs (.rejected e)).2 := by
  intro st c rs e hv hne
  have he : handleSubmitPayment st c rs (.rejected e) =
      (submitContinuation { st with isSaving := true } (.rejected e),
        Effect.createPayment (buildWrapper st c rs) ::
          (match getErrorMessage e with
           | .ok m => [Effect.toast "Error" m "error"]
           | .error _ => [])) := by
    simp [handleSubmitPayment, hv]
  rw [he]
  refine ⟨rfl, ?_⟩
  cases e with
  | nullV => exact absurd rfl hne
  | str s => simp [getErrorMessage, specErrorMessage]
  | obj body => simp [getErrorMessage, specErrorMessage]

/-- C6 (counterexample): a `null` rejection value on the filled cash form
leaves the component state untouched (the claim's preservation and idle parts
hold) but dispatches no toast at all — the effect list is exactly the
`createPayment` call — because `getErrorMessage(null)` throws on
`error.body`. -/
theorem submit_null_rejection_no_toast :
    (handleSubmitPayment stCash clockSample rsSample (.rejected .nullV)).2 =
      [Effect.createPayment (buildWrapper stCash clockSample rsSample)] ∧
    (handleSubmitPayment stCash clockSample rsSample (.rejected .nullV)).1 = stCash := by
  decide

/-- C6 (witness): a string rejection on the filled cash form preserves the
entry and dispatches the error toast with the string itself. -/
theorem submit_failure_preserves_entry_wit :
    (handleSubmitPayment stCash clockSample rsSample (.rejected (.str "Server error"))).1 =
      { stCash with isSaving := false } ∧
    Effect.toast "Error" (specErrorMessage (.str "Server error")) "error" ∈
      (handleSubmitPayment stCash clockSample rsSample (.rejected (.str "Server error"))).2 :=
  submit_failure_preserves_entry stCash clockSample rsSample (.str "Server error")
    (by decide) (by decide)

/-- C7 (confirmed): a failing validation returns the component state unchanged
with the single validation toast as the only effect — no `createPayment` call
— and the first failing check in source order decides the message: a falsy or
non-positive amount gives the invalid-amount message even if later checks
would also fail, an amount above the outstanding gives the exceed message, and
otherwise the first empty required field names itself; in particular the UPI
form with amount `1500` against outstanding `1000` (and untouched fields)
surfaces exactly the exceed message. -/
theorem validation_failure_short_circuit :
    (∀ (st : CState) (c : Clock) (rs : List (Fin 36)) (out : RemoteOutcome)
      (m : String), validateResult st = some m →
      handleSubmitPayment st c rs out = (st, [Effect.toast "Validation Error" m "error"])) ∧
    (∀ st : CState, st.paymentAmount.truthy = false ∨
        jsLe st.paymentAmount.parseFloat 0 = true →
      validateResult st = some "Please enter a valid amount") ∧
    (∀ st : CState, st.paymentAmount.truthy = true →
      jsLe st.paymentAmount.parseFloat 0 = false →
      jsGt st.paymentAmount.parseFloat (jsOrZero (outstandingAmount st)) = true →
      validateResult st = some "Payment amount cannot exceed outstanding amount") ∧
    (∀ (st : CState) (f : FieldSpec), st.paymentAmount.truthy = true →
      jsLe st.paymentAmount.parseFloat 0 = false →
      jsGt st.paymentAmount.parseFloat (jsOrZero (outstandingAmount st)) = false →
      (paymentModeFieldsLookup st.selectedPaymentMode).find?
        (fun g => g.required && fieldEmpty st g.name) = some f →
      validateResult st = some (f.label ++ " is required")) ∧
    (validateResult stUpiOver = some "Payment amount cannot exceed outstanding amount" ∧
      handleSubmitPayment stUpiOver clockSample rsSample (.resolved true) =
        (stUpiOver, [Effect.toast "Validation Error"
          "Payment amount cannot exceed outstanding amount" "error"])) := by
  refine ⟨?_, ?_, ?_, ?_, by decide⟩
  · intro st c rs out m h
    simp [handleSubmitPayment, h]
  · intro st h
    rcases h with h | h <;> simp [validateResult, h]
  · intro st h1 h2 h3
    simp [validateResult, h1, h2, h3]
  · intro st f h1 h2 h3 h4
    simp [validateResult, h1, h2, h3, h4]

/-- C7 (witness): the failing UPI submission applied through the first
conjunct — state unchanged, the single exceed-message toast, no call. -/
theorem validation_failure_short_circuit_wit :
    handleSubmitPayment stUpiOver clockSample rsSample (.resolved true) =
      (stUpiOver, [Effect.toast "Validation Error"
        "Payment amount cannot exceed outstanding amount" "error"]) :=
  validation_failure_short_circuit.1 stUpiOver clockSample rsSample (.resolved true)
    "Payment amount cannot exceed outstanding amount" (by decide)

/-- A reference property of another mode never occurs among a mode's own
dynamic field names. -/
lemma refNames_outside_mode (m : PaymentMode) :
    ∀ r ∈ refNames, r ≠ refFieldName m → (requiredNames m).contains r = false := by
  cases m <;> decide

/-- C5 (confirmed): for every submission with a selected mode that passes
validation (with a numeric amount and the form fields belonging to the mode,
as mode selection guarantees), the wrapper sent to `createPayment` carries the
invoice id, the customer id, the parsed amount, the ISO date without time,
the selected mode, status `Received` and the note; among the four
mode-specific reference properties exactly the selected mode's one is
present, holding the generated reference, the other three being absent; and
the `createPayment` call is the first effect of the submission whatever the
remote outcome. -/
theorem submit_payload_fields :
    ∀ (st : CState) (c : Clock) (rs : List (Fin 36)) (m : PaymentMode) (q : ℚ),
      st.selectedPaymentMode = some m → st.paymentAmount = .numA q →
      validateResult st = none →
      st.formFields.all (fun p => (requiredNames m).contains p.1) = true →
      (buildWrapper st c rs).invoiceId = st.invoiceData.id ∧
      (buildWrapper st c rs).customerId = st.invoiceData.customerId ∧
      (buildWrapper st c rs).paymentAmount = some q ∧
      (buildWrapper st c rs).paymentDate = isoDate c ∧
      (buildWrapper st c rs).paymentMode = some m ∧
      (buildWrapper st c rs).paymentStatus = "Received" ∧
      (buildWrapper st c rs).paymentNote = st.paymentNote ∧
      objGet (buildWrapper st c rs).fields (refFieldName m) =
        some (generateTransactionId (some m) st c (some q) rs) ∧
      (∀ r ∈ refNames, r ≠ refFieldName m →
        objGet (buildWrapper st c rs).fields r = none) ∧
      (∀ out : RemoteOutcome, (handleSubmitPayment st c rs out).2.head? =
        some (Effect.createPayment (buildWrapper st c rs))) := by
  intro st c rs m q hm hq hv hall
  have hfields : (buildWrapper st c rs).fields =
      objSet st.formFields (refFieldName m)
        (generateTransactionId (some m) st c (some q) rs) := by
    simp [buildWrapper, hm, hq, AmountInput.parseFloat]
  refine ⟨rfl, rfl, ?_, rfl, ?_, rfl, rfl, ?_, ?_, ?_⟩
  · show st.paymentAmount.parseFloat = some q
    rw [hq]
    rfl
  · show st.selectedPaymentMode = some m
    exact hm
  · rw [hfields]
    exact objGet_objSet_self _ _ _
  · intro r hr hne
    rw [hfields, objGet_objSet_ne _ _ _ _ hne]
    apply objGet_eq_none
    intro p hp heq
    have hc1 : (requiredNames m).contains p.1 = true := by
      rw [List.all_eq_true] at hall
      exact hall p hp
    have hc2 : (requiredNames m).contains r = false := refNames_outside_mode m r hr hne
    rw [heq] at hc1
    rw [hc1] at hc2
    exact absurd hc2 (by simp)
  · intro out
    cases out with
    | resolved b => cases b <;> simp [handleSubmitPayment, hv]
    | rejected e => simp [handleSubmitPayment, hv]

/-- C5 (witness): the payload theorem applied to the filled cash submission —
parsed amount, status, the generated `cashReceiptNumber` present and a foreign
reference property absent. -/
theorem submit_payload_fields_wit :
    (buildWrapper stCash clockSample rsSample).paymentAmount = some 500 ∧
    (buildWrapper stCash clockSample rsSample).paymentStatus = "Received" ∧
    objGet (buildWrapper stCash clockSample rsSample).fields (refFieldName .cash) =
      some (generateTransactionId (some .cash) stCash clockSample (some 500) rsSample) ∧
    objGet (buildWrapper stCash clockSample rsSample).fields "upiReferenceNumber" = none := by
  have h := submit_payload_fields stCash clockSample rsSample .cash 500 rfl rfl
    (by decide) (by decide)
  exact ⟨h.2.2.1, h.2.2.2.2.2.1, h.2.2.2.2.2.2.2.1,
    h.2.2.2.2.2.2.2.2.1 "upiReferenceNumber" (by decide) (by decide)⟩

/-- C8 (confirmed): along every reachable execution the number of
`createInvoicePayment` calls in flight never exceeds one, and it is exactly
one precisely while the saving flag is up — the flag disables the pay button,
so no second submission can start before the pending call settles. -/
theorem no_parallel_submissions :
    ∀ s : SysState, SysReachable s →
      s.inFlight ≤ 1 ∧ (s.comp.isSaving = true ↔ s.inFlight = 1) := by
  intro s h
  induction h with
  | init => exact ⟨by decide, by decide⟩
  | step s s' hr hstep ih =>
      cases hstep with
      | modeSelect m => exact ⟨ih.1, by simpa [handlePaymentModeSelect] using ih.2⟩
      | amountChange a => exact ⟨ih.1, by simpa using ih.2⟩
      | fieldChange k v => exact ⟨ih.1, by simpa using ih.2⟩
      | noteChange t => exact ⟨ih.1, by simpa using ih.2⟩
      | errorClose => exact ⟨ih.1, by simpa using ih.2⟩
      | wireInvoiceData d => exact ⟨ih.1, by simpa [wireInvoiceApply] using ih.2⟩
      | wireInvoiceFailed msg => exact ⟨ih.1, by simpa [wireInvoiceFail] using ih.2⟩
      | wireHistory => exact ⟨ih.1, by simpa using ih.2⟩
      | loadingToggle b => exact ⟨ih.1, by simpa using ih.2⟩
      | clickPayInvalid m hdis hval => exact ih
      | clickPayValid hdis hval =>
          have hsav := enabled_not_saving _ hdis
          have h0 : s.inFlight = 0 := by
            have h2 := ih.2
            rw [hsav] at h2
            have h1 := ih.1
            have hne : ¬ s.inFlight = 1 := fun hc => by simp [hc] at h2
            omega
          refine ⟨?_, ?_⟩
          · show s.inFlight + 1 ≤ 1
            omega
          · show ({ s.comp with isSaving := true }).isSaving = true ↔ s.inFlight + 1 = 1
            simp [h0]
      | settle out hfl =>
          have hssav := submitContinuation_isSaving s.comp out
          have h1 := ih.1
          refine ⟨?_, ?_⟩
          · show s.inFlight - 1 ≤ 1
            omega
          · show (submitContinuation s.comp out).isSaving = true ↔ s.inFlight - 1 = 1
            rw [hssav]
            constructor
            · intro hc; exact absurd hc (by simp)
            · intro hc; exfalso; omega

/-- C8 (witness): the invariant holds at the initial state, which is
reachable by construction. -/
theorem no_parallel_submissions_wit :
    initSys.inFlight ≤ 1 ∧ (initSys.comp.isSaving = true ↔ initSys.inFlight = 1) :=
  no_parallel_submissions initSys SysReachable.init

/-- C9 (amended): for every caught error value other than `null`/`undefined`,
`getErrorMessage` returns a string and it is exactly the one the
specification describes — the structured body's `message` when truthy, else
its `exceptionMessage` when truthy, else the error itself when it is a
string, else the fixed fallback `'An error occurred'`.  (On `null` or
`undefined` the read of `error.body` itself throws — see the
counterexample.) -/
theorem getErrorMessage_ok_on_defined :
    ∀ e : JsError, e ≠ JsError.nullV →
      getErrorMessage e = Except.ok (specErrorMessage e) := by
  intro e h
  cases e with
  | nullV => exact absurd rfl h
  | str s => rfl
  | obj body => rfl

/-- C9 (counterexample): extraction is not total — on a `null` caught value
`getErrorMessage` throws a `TypeError` reading `error.body` instead of
returning a message string. -/
theorem getErrorMessage_null_throws :
    getErrorMessage JsError.nullV = Except.error () :=
  rfl

/-- C9 (witness): extraction applied to a plain string error returns the
string itself. -/
theorem getErrorMessage_ok_on_defined_wit :
    getErrorMessage (JsError.str "boom") = Except.ok (specErrorMessage (JsError.str "boom")) :=
  getErrorMessage_ok_on_defined (JsError.str "boom") (by decide)
